import Mathlib

/-!
Shallow embedding of the scoring-service loyalty backend
(repository SergeiDmitruk/scoring-service) for checking its
natural-language specification.

Monetary amounts (Go float64 columns NUMERIC(10,2)) are modelled as
rationals; the claims under study concern control flow, sign conditions
and ledger arithmetic, none of which depend on binary floating point
rounding.  Database tables are modelled as functions from their key
(Postgres UNIQUE columns users.id, orders.number) to an optional row,
plus an append-only list for the withdrawals table.  Transient driver
errors and context cancellation are not modelled: the store's SQL is
embedded as the state transformation it performs when the statement
executes.
-/

namespace Scoring

/-- Row of the users table restricted to the balance columns
(current_balance, withdrawn); see migration 20250323203746. -/
structure UserRow where
  current : ℚ
  withdrawn : ℚ
  deriving DecidableEq, Repr

/-- Row of the orders table: user_id, status, accrual (nullable NUMERIC).
uploaded_at is irrelevant to every claim and omitted. -/
structure OrderRow where
  userId : Int
  status : String
  accrual : Option ℚ
  deriving DecidableEq, Repr

/-- Row of the withdrawals table (uploaded_at omitted). -/
structure WRow where
  userId : Int
  orderNumber : String
  sum : ℚ
  deriving DecidableEq, Repr

/-- Database state: users keyed by id, orders keyed by number,
withdrawals append-only. -/
structure St where
  users : Int → Option UserRow
  orders : String → Option OrderRow
  withdrawals : List WRow

/-- Go order-status constants from pkg/models. -/
def OrderNew : String := "NEW"

def OrderProcessing : String := "PROCESSING"

def OrderInvalid : String := "INVALID"

def OrderProcessed : String := "PROCESSED"

/-- Double a Luhn digit, subtracting 9 on overflow. -/
def luhnDouble (d : Nat) : Nat :=
  if 2 * d > 9 then 2 * d - 9 else 2 * d

/-- Luhn checksum over digits listed right-to-left; the Bool flags whether
the current digit is in a doubled position. -/
def luhnSum : Bool → List Nat → Nat
  | _, [] => 0
  | false, d :: ds => d + luhnSum true ds
  | true, d :: ds => luhnDouble d + luhnSum false ds

/-- Modelled from the spec: the order-number checksum validation
auth.IsValidLuhn, whose implementation is absent from src/ (only its unit
tests and call sites are present).  The spec's glossary names it the
"Luhn check: checksum validation algorithm applied to order/withdrawal
numbers" over "Luhn-valid digit strings", i.e. the standard Luhn mod-10
checksum: every non-empty all-digit string whose right-to-left
alternating doubled-digit sum is divisible by 10 is valid; anything else
(empty string, non-digit characters) is invalid.  This definition agrees
with all eleven vectors of the repository's own TestIsValidLuhn table
(theorem IsValidLuhn_matches_repo_tests below). -/
def IsValidLuhn (s : String) : Bool :=
  let cs := s.data
  !cs.isEmpty && cs.all Char.isDigit &&
    luhnSum false ((cs.reverse).map (fun c => c.toNat - 48)) % 10 == 0

/-!  Ledger Store operations (internal/storage/postgres.go).  -/

/-- go sql.NullFloat64 with Valid: v > 0, as built by UpdateOrder. -/
def nullIfNonpos (v : ℚ) : Option ℚ :=
  if v > 0 then some v else none

/-- PgStorage.SaveOrder: INSERT INTO orders ... ON CONFLICT (number) DO
UPDATE SET status = $3, accrual = $4.  The accrual parameter is always
marked Valid (sql.NullFloat64 with Valid: true), and on conflict the
user_id column is not touched. -/
def SaveOrder (st : St) (user : Int) (number status : String) (accrual : ℚ) : St :=
  { st with
    orders := fun n =>
      if n = number then
        match st.orders number with
        | some row => some { row with status := status, accrual := some accrual }
        | none => some { userId := user, status := status, accrual := some accrual }
      else st.orders n }

/-- PgStorage.UpdateOrder: one statement with a CTE.
UPDATE orders SET status = $2, accrual = $3 WHERE number = $1
RETURNING user_id, accrual; then
UPDATE users SET current_balance = current_balance + uo.accrual
WHERE users.id = uo.user_id AND uo.accrual > 0.
The bound accrual is sql.NullFloat64 with Valid: accrual > 0, so the new
accrual column is NULL unless strictly positive, and the users update
fires only when the (new) accrual is a positive non-NULL value.  If no
order row matches the number, the CTE is empty and nothing changes. -/
def UpdateOrder (st : St) (order status : String) (accrual : ℚ) : St :=
  match st.orders order with
  | none => st
  | some row =>
    let newAcc := nullIfNonpos accrual
    let st1 : St :=
      { st with
        orders := fun n =>
          if n = order then some { row with status := status, accrual := newAcc }
          else st.orders n }
    match newAcc with
    | some a =>
      { st1 with
        users := fun v =>
          if v = row.userId then
            (st1.users v).map (fun u => { u with current := u.current + a })
          else st1.users v }
    | none => st1

/-- Outcome of PgStorage.Withdraw. -/
inductive WithdrawResult where
  | ok
  | insufficientFunds
  | noUser
  deriving DecidableEq, Repr

/-- PgStorage.Withdraw: serializable transaction that SELECTs
current_balance FOR UPDATE (Scan errors with no such user, rolling
back), returns the insufficient-funds error when current_balance < sum
(rolling back), and otherwise INSERTs one withdrawals row and UPDATEs
users SET current_balance = current_balance - sum,
withdrawn = withdrawn + sum before committing. -/
def Withdraw (st : St) (userID : Int) (order : String) (sum : ℚ) :
    WithdrawResult × St :=
  match st.users userID with
  | none => (WithdrawResult.noUser, st)
  | some u =>
    if u.current < sum then (WithdrawResult.insufficientFunds, st)
    else
      (WithdrawResult.ok,
        { st with
          withdrawals := st.withdrawals ++ [⟨userID, order, sum⟩],
          users := fun v =>
            if v = userID then
              some { current := u.current - sum, withdrawn := u.withdrawn + sum }
            else st.users v })

/-- PgStorage.IsOrderExists: SELECT user_id FROM orders WHERE number = $1,
returning 0 when no row exists (sql.ErrNoRows is swallowed). -/
def IsOrderExists (st : St) (orderNum : String) : Int :=
  match st.orders orderNum with
  | some row => row.userId
  | none => 0

/-- PgStorage.GetUserBalance: SELECT COALESCE(current_balance,0),
COALESCE(withdrawn,0) FROM users WHERE id = $1; no row means the
QueryRow Scan fails, surfaced as none here. -/
def GetUserBalance (st : St) (userID : Int) : Option UserRow :=
  st.users userID

/-!  Use-case layer (internal/service/service.go) and HTTP handlers
(internal/server/handlers.go).  Each function is embedded together with
the trace of Storage-interface calls (and queue pushes) it performs, so
that claims of the form "no store or queue interaction occurs" are
statable. -/

/-- service.CreateStatus constants. -/
inductive CreateStatus where
  | ok
  | alreadyExist
  | conflict
  | invalid
  | error
  deriving DecidableEq, Repr

/-- One interaction with the Storage interface or the job queue. -/
inductive StoreCall where
  | isOrderExists (n : String)
  | saveOrder (user : Int) (n : String)
  | updateOrder (n : String) (status : String)
  | getUserBalance (u : Int)
  | withdraw (u : Int) (n : String) (sum : ℚ)
  | enqueue (u : Int) (n : String)
  deriving DecidableEq, Repr

/-- AccrualService.CreateOrder: Luhn-validate, then IsOrderExists; when
the number is unknown SaveOrder a NEW order (models.Order zero-value
Accrual 0), else compare owners.  Driver-error branches (StatusError)
are not modelled, the pure store always succeeds. -/
def CreateOrder (st : St) (userID : Int) (orderNum : String) :
    CreateStatus × St × List StoreCall :=
  if IsValidLuhn orderNum then
    let realUserID := IsOrderExists st orderNum
    if realUserID = 0 then
      (CreateStatus.ok, SaveOrder st userID orderNum OrderNew 0,
        [StoreCall.isOrderExists orderNum, StoreCall.saveOrder userID orderNum])
    else if userID ≠ realUserID then
      (CreateStatus.conflict, st, [StoreCall.isOrderExists orderNum])
    else
      (CreateStatus.alreadyExist, st, [StoreCall.isOrderExists orderNum])
  else (CreateStatus.invalid, st, [])

/-- AccrualService.CreateWithdraw: Luhn-validate the withdrawal's order
number, then GetUserBalance (error when the user row is missing), return
StatusConflict when current < sum, else delegate to the store's
Withdraw.  There is no check on the sign of sum. -/
def CreateWithdraw (st : St) (userID : Int) (order : String) (sum : ℚ) :
    CreateStatus × St × List StoreCall :=
  if IsValidLuhn order then
    match GetUserBalance st userID with
    | none => (CreateStatus.error, st, [StoreCall.getUserBalance userID])
    | some bal =>
      if bal.current < sum then
        (CreateStatus.conflict, st, [StoreCall.getUserBalance userID])
      else
        let r := Withdraw st userID order sum
        ((if r.1 = WithdrawResult.ok then CreateStatus.ok else CreateStatus.error),
          r.2,
          [StoreCall.getUserBalance userID, StoreCall.withdraw userID order sum])
  else (CreateStatus.invalid, st, [])

/-- handler.PostOrder, after authentication and body read; orderNum is
strings.TrimSpace of the request body (whitespace normalisation is
outside the claims and not re-modelled).  On a Luhn-invalid number the
handler first issues UpdateOrder(number, INVALID) against the store
(AccrualResponse zero-value Accrual 0) and then answers 422; on a valid
number it runs IsOrderExists / SaveOrder and finally pushes the job onto
the queue channel on both the 202 (new) and 200 (already own) paths. -/
def PostOrder (st : St) (userID : Int) (orderNum : String) :
    Nat × St × List StoreCall :=
  if IsValidLuhn orderNum then
    let realUserID := IsOrderExists st orderNum
    if realUserID = 0 then
      (202, SaveOrder st userID orderNum OrderNew 0,
        [StoreCall.isOrderExists orderNum, StoreCall.saveOrder userID orderNum,
          StoreCall.enqueue userID orderNum])
    else if userID ≠ realUserID then
      (409, st, [StoreCall.isOrderExists orderNum])
    else
      (200, st, [StoreCall.isOrderExists orderNum, StoreCall.enqueue userID orderNum])
  else
    (422, UpdateOrder st orderNum OrderInvalid 0,
      [StoreCall.updateOrder orderNum OrderInvalid])

/-- handler.WithdrawBalance, after authentication and JSON decode:
422 on a Luhn-invalid number, 400 on sum <= 0, then GetUserBalance
(500 on error), 402 when current < sum, else the store Withdraw and
200. -/
def WithdrawBalance (st : St) (userID : Int) (order : String) (sum : ℚ) :
    Nat × St × List StoreCall :=
  if IsValidLuhn order then
    if sum ≤ 0 then (400, st, [])
    else
      match GetUserBalance st userID with
      | none => (500, st, [StoreCall.getUserBalance userID])
      | some bal =>
        if bal.current < sum then (402, st, [StoreCall.getUserBalance userID])
        else
          let r := Withdraw st userID order sum
          ((if r.1 = WithdrawResult.ok then 200 else 500), r.2,
            [StoreCall.getUserBalance userID, StoreCall.withdraw userID order sum])
  else (422, st, [])

/-!  Accrual Client (AccrualService.FetchAccrual, internal/service/service.go
lines 59-127).  One external HTTP response per loop iteration; the
response sequence is supplied as a list (a finite prefix of the
external service's behaviour).  Context cancellation and URL-parse
failure are not modelled: the claims quantify over response sequences
with the context never done and a well-formed configured URL. -/

/-- One response of the external accrual service as seen by the client:
transport failure, 204, 429 (with the Retry-After header when present
and parseable by strconv.Atoi), 500, 200 with a decoded
AccrualResponse, or 200 with an undecodable body. -/
inductive Resp where
  | transportErr
  | noContent
  | tooMany (retryAfter : Option Int)
  | serverErr
  | okDecision (order : String) (status : String) (accrual : ℚ)
  | decodeErr
  deriving DecidableEq, Repr

/-- Observable client events: one HTTP request, or one time.Sleep of the
given number of seconds (time.Second is the time unit). -/
inductive Ev where
  | request
  | sleep (secs : Int)
  deriving DecidableEq, Repr

/-- Retry-loop state: the failed-attempt counter and the current backoff
in seconds (initialised to attempts = 0, backoff = 1 = time.Second). -/
structure LoopState where
  attempts : Nat
  backoff : Int
  deriving DecidableEq, Repr

/-- Terminal outcomes of FetchAccrual. -/
inductive FetchResult where
  | maxRetries
  | notRegistered
  | internalErr
  | decodeFail
  | updated
  deriving DecidableEq, Repr

/-- AccrualService.FetchAccrual run against a finite prefix of the
response sequence.  Per source: the attempts >= maxAttempts (5) check
sits at the top of the loop; a transport error sleeps the current
backoff, doubles it and increments attempts; 204 returns the terminal
"order not registered" error; 429 with a parseable Retry-After resets
backoff to one second, sleeps the indicated duration and continues
without touching attempts; 429 without one continues immediately,
touching nothing; 500 returns "internal server error"; a decoded 200
applies UpdateOrder and returns nil.  The first component is none when
the prefix was exhausted with the loop still running. -/
def fetchRun (st : St) (ls : LoopState) : List Resp →
    Option (FetchResult × St) × List Ev
  | [] =>
    if ls.attempts ≥ 5 then (some (FetchResult.maxRetries, st), []) else (none, [])
  | r :: rest =>
    if ls.attempts ≥ 5 then (some (FetchResult.maxRetries, st), [])
    else
      match r with
      | Resp.transportErr =>
        let k := fetchRun st ⟨ls.attempts + 1, ls.backoff * 2⟩ rest
        (k.1, Ev.request :: Ev.sleep ls.backoff :: k.2)
      | Resp.noContent => (some (FetchResult.notRegistered, st), [Ev.request])
      | Resp.tooMany (some retry) =>
        let k := fetchRun st ⟨ls.attempts, 1⟩ rest
        (k.1, Ev.request :: Ev.sleep retry :: k.2)
      | Resp.tooMany none =>
        let k := fetchRun st ls rest
        (k.1, Ev.request :: k.2)
      | Resp.serverErr => (some (FetchResult.internalErr, st), [Ev.request])
      | Resp.okDecision o s a =>
        (some (FetchResult.updated, UpdateOrder st o s a), [Ev.request])
      | Resp.decodeErr => (some (FetchResult.decodeFail, st), [Ev.request])

/-- The loop state FetchAccrual starts from: attempts = 0,
backoff = time.Second. -/
def initLoop : LoopState := ⟨0, 1⟩

/-- QueueManager.worker handling of one dequeued job
(internal/service/queue.go lines 131-145): call FetchAccrual, log the
error or the success (no store interaction of its own on either path),
then DequeueOrder removes the number from the in-flight set.  Returns
none when the supplied response prefix did not let FetchAccrual
terminate. -/
def workerProcess (st : St) (inflight : List String) (order : String)
    (resps : List Resp) : Option (FetchResult × St × List String) :=
  match (fetchRun st initLoop resps).1 with
  | none => none
  | some (res, st2) => some (res, st2, inflight.erase order)

/-!  Concrete states used by witnesses and counterexamples. -/

/-- Example state: user 1 with zero balance owning order 79927398713 in
status PROCESSING (mid-pipeline), no withdrawals. -/
def stA : St where
  users := fun v => if v = 1 then some ⟨0, 0⟩ else none
  orders := fun n => if n = "79927398713" then some ⟨1, OrderProcessing, none⟩ else none
  withdrawals := []

/-- Example state: user 1 with balance 100 owning order 79927398713
already PROCESSED with accrual 100. -/
def stB : St where
  users := fun v => if v = 1 then some ⟨100, 0⟩ else none
  orders := fun n => if n = "79927398713" then some ⟨1, OrderProcessed, some 100⟩ else none
  withdrawals := []

/-!  Theorems. -/

/-- Checks the embedded Luhn predicate against the repository's own unit
test table in internal/auth (TestIsValidLuhn). -/
theorem IsValidLuhn_matches_repo_tests :
    IsValidLuhn "79927398713" = true ∧
    IsValidLuhn "4539578763621486" = true ∧
    IsValidLuhn "6011000990139424" = true ∧
    IsValidLuhn "378282246310005" = true ∧
    IsValidLuhn "79927398710" = false ∧
    IsValidLuhn "4539578763621487" = false ∧
    IsValidLuhn "1234567812345678" = false ∧
    IsValidLuhn "" = false ∧
    IsValidLuhn "0000000000000000" = true ∧
    IsValidLuhn "abcdefg" = false ∧
    IsValidLuhn "4111x11111111111" = false := by
  decide

/-- Claim C1: applying the accrual result for the same order with the same
PROCESSED decision twice is supposed to credit the owner exactly once.
The code violates this: UpdateOrder's SQL conditions the balance credit
only on the (new) accrual being positive, never on the order's current
status, so a second identical call against the already-PROCESSED order
credits the accrual again.  Starting from a zero balance with the order
in PROCESSING, the first UpdateOrder(PROCESSED, 100) leaves current =
100 and status PROCESSED, and the repeated identical call leaves
current = 200. -/
theorem C1_repeated_processed_double_credits :
    (((UpdateOrder stA "79927398713" OrderProcessed 100).orders
        "79927398713").map OrderRow.status = some OrderProcessed) ∧
    (((UpdateOrder stA "79927398713" OrderProcessed 100).users 1).map
        UserRow.current = some 100) ∧
    (((UpdateOrder (UpdateOrder stA "79927398713" OrderProcessed 100)
        "79927398713" OrderProcessed 100).users 1).map UserRow.current =
      some 200) := by
  refine ⟨rfl, ?_, ?_⟩ <;>
    norm_num [UpdateOrder, stA, nullIfNonpos, OrderProcessing, OrderProcessed]

/-- Claim C4: PROCESSED and INVALID are supposed to be terminal, yet the
store enforces no transition discipline: UpdateOrder overwrites the
status of an already-PROCESSED order with whatever status the caller
supplies (here PROCESSING), and SaveOrder's ON CONFLICT upsert likewise
resets a PROCESSED order back to NEW (clobbering its accrual with the
new order's zero value). -/
theorem C4_terminal_status_overwritten :
    (((UpdateOrder stB "79927398713" OrderProcessing 0).orders
        "79927398713").map OrderRow.status = some OrderProcessing) ∧
    (((SaveOrder stB 2 "79927398713" OrderNew 0).orders
        "79927398713").map OrderRow.status = some OrderNew) ∧
    ((stB.orders "79927398713").map OrderRow.status = some OrderProcessed) := by
  refine ⟨?_, ?_, ?_⟩ <;>
    norm_num [UpdateOrder, SaveOrder, stB, nullIfNonpos, OrderProcessing,
      OrderProcessed, OrderNew]

/-- Claim C10: a call to UpdateOrder whose decision carries a
non-positive accrual changes no user balance and no withdrawal record:
the users and withdrawals tables are untouched, every other order row is
untouched, the matching order row (when it exists) gets the new status
with its accrual column set to NULL, and when no row matches the state
is unchanged entirely. -/
theorem C10_nonpositive_accrual_frame (st : St) (number status : String)
    (a : ℚ) (ha : a ≤ 0) :
    (UpdateOrder st number status a).users = st.users ∧
    (UpdateOrder st number status a).withdrawals = st.withdrawals ∧
    (∀ n, n ≠ number → (UpdateOrder st number status a).orders n = st.orders n) ∧
    (∀ row, st.orders number = some row →
      (UpdateOrder st number status a).orders number =
        some { row with status := status, accrual := none }) ∧
    (st.orders number = none → UpdateOrder st number status a = st) := by
  have hpos : ¬ a > 0 := by linarith
  refine ⟨?_, ?_, ?_, ?_, ?_⟩
  · cases ho : st.orders number <;>
      simp [UpdateOrder, ho, nullIfNonpos, hpos]
  · cases ho : st.orders number <;>
      simp [UpdateOrder, ho, nullIfNonpos, hpos]
  · intro n hn
    cases ho : st.orders number <;>
      simp [UpdateOrder, ho, nullIfNonpos, hpos, hn]
  · intro row' hrow'
    simp [UpdateOrder, hrow', nullIfNonpos, hpos]
  · intro hnone
    simp [UpdateOrder, hnone]

/-- Witness for C10 at a concrete input: accrual 0 against the
PROCESSING order of stA. -/
theorem C10_nonpositive_accrual_frame_witness :
    (UpdateOrder stA "79927398713" OrderInvalid 0).users = stA.users ∧
    (UpdateOrder stA "79927398713" OrderInvalid 0).withdrawals = stA.withdrawals ∧
    (∀ n, n ≠ "79927398713" →
      (UpdateOrder stA "79927398713" OrderInvalid 0).orders n = stA.orders n) ∧
    (∀ row, stA.orders "79927398713" = some row →
      (UpdateOrder stA "79927398713" OrderInvalid 0).orders "79927398713" =
        some { row with status := OrderInvalid, accrual := none }) ∧
    (stA.orders "79927398713" = none →
      UpdateOrder stA "79927398713" OrderInvalid 0 = stA) :=
  C10_nonpositive_accrual_frame stA "79927398713" OrderInvalid 0 (by norm_num)

/-- Claim C2: for every Withdraw call against an existing user row, an
insufficient current balance yields the insufficient-funds error with
the state unchanged (the transaction rolls back: no withdrawal row, no
balance change), and otherwise the single transaction appends exactly
one withdrawal record, decrements current by sum and increments
withdrawn by sum, touching no other user and no order. -/
theorem C2_withdraw_spec (st : St) (uid : Int) (ord : String) (sum : ℚ)
    (u : UserRow) (h : st.users uid = some u) :
    (u.current < sum →
      Withdraw st uid ord sum = (WithdrawResult.insufficientFunds, st)) ∧
    (¬ u.current < sum →
      (Withdraw st uid ord sum).1 = WithdrawResult.ok ∧
      (Withdraw st uid ord sum).2.withdrawals = st.withdrawals ++ [⟨uid, ord, sum⟩] ∧
      (Withdraw st uid ord sum).2.users uid =
        some ⟨u.current - sum, u.withdrawn + sum⟩ ∧
      (∀ v, v ≠ uid → (Withdraw st uid ord sum).2.users v = st.users v) ∧
      (Withdraw st uid ord sum).2.orders = st.orders) := by
  constructor
  · intro hlt
    simp [Withdraw, h, hlt]
  · intro hge
    refine ⟨?_, ?_, ?_, ?_, ?_⟩
    · simp [Withdraw, h, hge]
    · simp [Withdraw, h, hge]
    · simp [Withdraw, h, hge]
    · intro v hv
      simp [Withdraw, h, hge, hv]
    · simp [Withdraw, h, hge]

/-- Witness for C2 at concrete inputs: user 1 of stA (current 0) cannot
withdraw 5 and the state is untouched; user 1 of stB (current 100)
withdraws 5 successfully. -/
theorem C2_withdraw_spec_witness :
    Withdraw stA 1 "2377225624" 5 = (WithdrawResult.insufficientFunds, stA) ∧
    (Withdraw stB 1 "2377225624" 5).1 = WithdrawResult.ok ∧
    (Withdraw stB 1 "2377225624" 5).2.withdrawals =
      stB.withdrawals ++ [⟨1, "2377225624", 5⟩] ∧
    (Withdraw stB 1 "2377225624" 5).2.users 1 = some ⟨100 - 5, 0 + 5⟩ :=
  have hA : stA.users 1 = some ⟨0, 0⟩ := rfl
  have hB : stB.users 1 = some ⟨100, 0⟩ := rfl
  have k := (C2_withdraw_spec stB 1 "2377225624" 5 ⟨100, 0⟩ hB).2 (by norm_num)
  ⟨(C2_withdraw_spec stA 1 "2377225624" 5 ⟨0, 0⟩ hA).1 (by norm_num),
    k.1, k.2.1, k.2.2.1⟩

/-- Claim C3 counterexample: the claim says no Ledger Store operation
ever decreases withdrawn (and that withdrawn stays non-negative), but
the store's Withdraw never validates the sign of sum: withdrawing -1
from user 1 of stA (current 0, withdrawn 0) passes the
current_balance < sum check (0 < -1 is false), succeeds, and drives
withdrawn from 0 down to -1. -/
theorem C3_negative_sum_decreases_withdrawn :
    (Withdraw stA 1 "2377225624" (-1)).1 = WithdrawResult.ok ∧
    ((Withdraw stA 1 "2377225624" (-1)).2.users 1).map UserRow.withdrawn =
      some (-1) ∧
    (stA.users 1).map UserRow.withdrawn = some 0 ∧
    ((-1 : ℚ) < 0) := by
  refine ⟨?_, ?_, ?_, by norm_num⟩ <;>
    norm_num [Withdraw, stA]

/-- Per-user balance sanity: every stored balance row has non-negative
current and withdrawn. -/
def BalInv (st : St) : Prop :=
  ∀ uid u, st.users uid = some u → 0 ≤ u.current ∧ 0 ≤ u.withdrawn

/-- The withdrawn column never decreases for any user between two
states. -/
def WithdrawnMono (pre post : St) : Prop :=
  ∀ uid u u', pre.users uid = some u → post.users uid = some u' →
    u.withdrawn ≤ u'.withdrawn

/-- Claim C3 as amended: the balance invariant (current never negative,
withdrawn non-negative and non-decreasing) is preserved by SaveOrder,
UpdateOrder, and by Withdraw PROVIDED the withdrawal sum is
non-negative; the store itself does not validate the sign of sum, so the
guarantee for Withdraw holds only under that hypothesis (the HTTP
handler's sum > 0 check is what supplies it in the deployed wiring). -/
theorem C3_ledger_invariant_preserved (st : St) (hinv : BalInv st)
    (user : Int) (number status : String) (a : ℚ)
    (uid : Int) (ord : String) (sum : ℚ) (hsum : 0 ≤ sum) :
    (BalInv (SaveOrder st user number status a) ∧
      WithdrawnMono st (SaveOrder st user number status a)) ∧
    (BalInv (UpdateOrder st number status a) ∧
      WithdrawnMono st (UpdateOrder st number status a)) ∧
    (BalInv (Withdraw st uid ord sum).2 ∧
      WithdrawnMono st (Withdraw st uid ord sum).2) := by
  refine ⟨⟨?_, ?_⟩, ⟨?_, ?_⟩, ⟨?_, ?_⟩⟩
  · intro v u hv
    exact hinv v u hv
  · intro v u u' hv hv'
    rw [show (SaveOrder st user number status a).users = st.users from rfl] at hv'
    rw [hv] at hv'
    cases hv'
    exact le_refl _
  · intro v u hv
    cases ho : st.orders number with
    | none =>
      rw [show UpdateOrder st number status a = st by simp [UpdateOrder, ho]] at hv
      exact hinv v u hv
    | some row =>
      by_cases ha : a > 0
      · simp only [UpdateOrder, ho, nullIfNonpos, if_pos ha] at hv
        by_cases hvrow : v = row.userId
        · rw [hvrow] at hv
          rw [if_pos rfl] at hv
          cases hsu : st.users row.userId with
          | none =>
            rw [hsu] at hv
            simp at hv
          | some u0 =>
            rw [hsu] at hv
            simp only [Option.map_some'] at hv
            have h0 := hinv row.userId u0 hsu
            cases hv
            constructor
            · simp only
              linarith [h0.1]
            · exact h0.2
        · rw [if_neg hvrow] at hv
          exact hinv v u hv
      · simp only [UpdateOrder, ho, nullIfNonpos, if_neg ha] at hv
        exact hinv v u hv
  · intro v u u' hv hv'
    cases ho : st.orders number with
    | none =>
      rw [show UpdateOrder st number status a = st by simp [UpdateOrder, ho]] at hv'
      rw [hv] at hv'
      cases hv'
      exact le_refl _
    | some row =>
      by_cases ha : a > 0
      · simp only [UpdateOrder, ho, nullIfNonpos, if_pos ha] at hv'
        by_cases hvrow : v = row.userId
        · rw [hvrow] at hv hv'
          rw [if_pos rfl] at hv'
          rw [hv] at hv'
          simp only [Option.map_some'] at hv'
          cases hv'
          exact le_refl _
        · rw [if_neg hvrow] at hv'
          rw [hv] at hv'
          cases hv'
          exact le_refl _
      · simp only [UpdateOrder, ho, nullIfNonpos, if_neg ha] at hv'
        rw [hv] at hv'
        cases hv'
        exact le_refl _
  · intro v u hv
    cases hu : st.users uid with
    | none =>
      rw [show Withdraw st uid ord sum = (WithdrawResult.noUser, st) by
        simp [Withdraw, hu]] at hv
      exact hinv v u hv
    | some u0 =>
      by_cases hlt : u0.current < sum
      · rw [show Withdraw st uid ord sum = (WithdrawResult.insufficientFunds, st) by
          simp [Withdraw, hu, hlt]] at hv
        exact hinv v u hv
      · simp only [Withdraw, hu, if_neg hlt] at hv
        by_cases hvu : v = uid
        · simp only [hvu, if_pos rfl, Option.some.injEq] at hv
          have h0 := hinv uid u0 hu
          cases hv
          constructor
          · simp only
            linarith [not_lt.mp hlt]
          · simp only
            linarith [h0.2]
        · simp only [if_neg hvu] at hv
          exact hinv v u hv
  · intro v u u' hv hv'
    cases hu : st.users uid with
    | none =>
      rw [show Withdraw st uid ord sum = (WithdrawResult.noUser, st) by
        simp [Withdraw, hu]] at hv'
      rw [hv] at hv'
      cases hv'
      exact le_refl _
    | some u0 =>
      by_cases hlt : u0.current < sum
      · rw [show Withdraw st uid ord sum = (WithdrawResult.insufficientFunds, st) by
          simp [Withdraw, hu, hlt]] at hv'
        rw [hv] at hv'
        cases hv'
        exact le_refl _
      · simp only [Withdraw, hu, if_neg hlt] at hv'
        by_cases hvu : v = uid
        · simp only [hvu, if_pos rfl, Option.some.injEq] at hv'
          rw [hvu] at hv
          rw [hv] at hu
          cases hu
          cases hv'
          simp only
          linarith
        · simp only [if_neg hvu] at hv'
          rw [hv] at hv'
          cases hv'
          exact le_refl _

/-- Witness for the amended C3 at concrete inputs: stB (user 1, current
100, withdrawn 0) with a withdrawal of 5. -/
theorem C3_ledger_invariant_preserved_witness :
    (BalInv (SaveOrder stB 1 "2377225624" OrderNew 0) ∧
      WithdrawnMono stB (SaveOrder stB 1 "2377225624" OrderNew 0)) ∧
    (BalInv (UpdateOrder stB "79927398713" OrderProcessed 7) ∧
      WithdrawnMono stB (UpdateOrder stB "79927398713" OrderProcessed 7)) ∧
    (BalInv (Withdraw stB 1 "2377225624" 5).2 ∧
      WithdrawnMono stB (Withdraw stB 1 "2377225624" 5).2) :=
  C3_ledger_invariant_preserved stB
    (by
      intro uid u hu
      by_cases h1 : uid = 1
      · subst h1
        rw [show stB.users 1 = some ⟨100, 0⟩ from rfl] at hu
        cases hu
        constructor <;> norm_num
      · rw [show stB.users uid = if uid = 1 then some ⟨100, 0⟩ else none from rfl,
          if_neg h1] at hu
        cases hu)
    1 "79927398713" OrderProcessed 7 1 "2377225624" 5 (by norm_num)

/-- Claim C5 counterexample: the claim says a Luhn-invalid submission is
rejected before ANY store interaction, but handler.PostOrder first
issues an UpdateOrder(number, INVALID) write against the store and only
then answers 422: the store-call trace for the Luhn-invalid body "1" is
the singleton UpdateOrder call, not the empty trace the claim
requires. -/
theorem C5_invalid_number_still_touches_store :
    IsValidLuhn "1" = false ∧
    (PostOrder stA 1 "1").1 = 422 ∧
    (PostOrder stA 1 "1").2.2 = [StoreCall.updateOrder "1" OrderInvalid] ∧
    (PostOrder stA 1 "1").2.2 ≠ [] := by
  have hL : IsValidLuhn "1" = false := by decide
  refine ⟨hL, ?_, ?_, ?_⟩ <;>
    simp [PostOrder, hL]

/-- Claim C5 as amended: a Luhn-invalid order number is rejected with no
enqueue and no order created — CreateOrder returns StatusInvalid with no
store interaction at all, and the handler answers 422 without reading
the store or enqueueing — but the handler first issues exactly one
UpdateOrder(number, INVALID) storage write; for a number that was never
saved that write matches no row and leaves the state unchanged. -/
theorem C5_luhn_invalid_rejected (st : St) (uid : Int) (s : String)
    (hs : IsValidLuhn s = false) :
    CreateOrder st uid s = (CreateStatus.invalid, st, []) ∧
    (PostOrder st uid s).1 = 422 ∧
    (PostOrder st uid s).2.2 = [StoreCall.updateOrder s OrderInvalid] ∧
    (∀ u n, StoreCall.enqueue u n ∉ (PostOrder st uid s).2.2) ∧
    (st.orders s = none → (PostOrder st uid s).2.1 = st) := by
  refine ⟨?_, ?_, ?_, ?_, ?_⟩
  · simp [CreateOrder, hs]
  · simp [PostOrder, hs]
  · simp [PostOrder, hs]
  · intro u n
    simp [PostOrder, hs]
  · intro hnone
    simp [PostOrder, hs, UpdateOrder, hnone]

/-- Witness for the amended C5 at the Luhn-invalid input "1" against
stA, which stores no order numbered "1". -/
theorem C5_luhn_invalid_rejected_witness :
    CreateOrder stA 1 "1" = (CreateStatus.invalid, stA, []) ∧
    (PostOrder stA 1 "1").1 = 422 ∧
    (PostOrder stA 1 "1").2.2 = [StoreCall.updateOrder "1" OrderInvalid] ∧
    (∀ u n, StoreCall.enqueue u n ∉ (PostOrder stA 1 "1").2.2) ∧
    (stA.orders "1" = none → (PostOrder stA 1 "1").2.1 = stA) :=
  C5_luhn_invalid_rejected stA 1 "1" (by decide)

/-- Claim C6 counterexample: the claim says CreateWithdraw rejects every
sum ≤ 0 before touching the store, but CreateWithdraw performs no sum
validation at all: for the Luhn-valid number 79927398713 with sum = 0 it
calls GetUserBalance and then the store Withdraw (0 ≤ current holds, so
the current < sum rejection does not fire either), an interaction trace
the claim requires to be empty. -/
theorem C6_nonpositive_sum_reaches_store :
    IsValidLuhn "79927398713" = true ∧
    ((0 : ℚ) ≤ 0) ∧
    (CreateWithdraw stA 1 "79927398713" 0).2.2 =
      [StoreCall.getUserBalance 1, StoreCall.withdraw 1 "79927398713" 0] ∧
    (CreateWithdraw stA 1 "79927398713" 0).1 = CreateStatus.ok := by
  have hL : IsValidLuhn "79927398713" = true := by decide
  refine ⟨hL, by norm_num, ?_, ?_⟩ <;>
    norm_num [CreateWithdraw, GetUserBalance, Withdraw, stA, hL]

/-- Claim C6 as amended: CreateWithdraw rejects a Luhn-invalid order
number before any store interaction (and the HTTP handler answers 422
likewise without store contact), but it does not validate the sum: for
every Luhn-valid number its first store call is GetUserBalance
regardless of the sign of sum; the non-positive-sum rejection lives one
layer up, in handler.WithdrawBalance, which answers 400 with no store
interaction. -/
theorem C6_withdraw_validation (st : St) (uid : Int) (ord : String) (sum : ℚ) :
    (IsValidLuhn ord = false →
      CreateWithdraw st uid ord sum = (CreateStatus.invalid, st, []) ∧
      WithdrawBalance st uid ord sum = (422, st, [])) ∧
    (IsValidLuhn ord = true →
      (CreateWithdraw st uid ord sum).2.2.head? =
        some (StoreCall.getUserBalance uid)) ∧
    (IsValidLuhn ord = true → sum ≤ 0 →
      WithdrawBalance st uid ord sum = (400, st, [])) := by
  refine ⟨?_, ?_, ?_⟩
  · intro h
    constructor
    · simp [CreateWithdraw, h]
    · simp [WithdrawBalance, h]
  · intro h
    cases hu : GetUserBalance st uid with
    | none => simp [CreateWithdraw, h, hu]
    | some bal =>
      by_cases hlt : bal.current < sum
      · simp [CreateWithdraw, h, hu, hlt]
      · simp [CreateWithdraw, h, hu, hlt]
  · intro h hle
    simp [WithdrawBalance, h, hle]

/-- Witness for the amended C6: the Luhn-invalid number "123456789" is
rejected storelessly, and for the Luhn-valid number with sum = -3 the
use-case's first store call is GetUserBalance while the handler answers
400 without store contact. -/
theorem C6_withdraw_validation_witness :
    (CreateWithdraw stA 1 "123456789" (5 : ℚ) = (CreateStatus.invalid, stA, []) ∧
      WithdrawBalance stA 1 "123456789" (5 : ℚ) = (422, stA, [])) ∧
    (CreateWithdraw stA 1 "79927398713" (-3)).2.2.head? =
      some (StoreCall.getUserBalance 1) ∧
    WithdrawBalance stA 1 "79927398713" (-3) = (400, stA, []) :=
  have k1 := C6_withdraw_validation stA 1 "123456789" (5 : ℚ)
  have k2 := C6_withdraw_validation stA 1 "79927398713" (-3)
  ⟨k1.1 (by decide), k2.2.1 (by decide), k2.2.2 (by decide) (by norm_num)⟩

/-- Helper: one loop iteration on a 429 response without a usable
Retry-After header is a bare continue: one request, no sleep, and the
loop state (attempts, backoff) completely untouched. -/
theorem fetchRun_tooManyNone (st : St) (ls : LoopState) (rest : List Resp)
    (h : ls.attempts < 5) :
    fetchRun st ls (Resp.tooMany none :: rest) =
      ((fetchRun st ls rest).1, Ev.request :: (fetchRun st ls rest).2) := by
  have h5 : ¬ ls.attempts ≥ 5 := by omega
  simp [fetchRun, h5]

/-- Helper: on every response list containing no 429 response, the fetch
loop reaches a terminal result once attempts plus remaining responses
cover the maximum of 5: every non-429 response either returns
immediately or is a transport error consuming one attempt. -/
theorem fetchRun_terminates_no429 (st : St) (resps : List Resp) :
    ∀ ls : LoopState, (∀ r ∈ resps, ∀ o, r ≠ Resp.tooMany o) →
      5 ≤ ls.attempts + resps.length →
      ((fetchRun st ls resps).1).isSome = true := by
  induction resps with
  | nil =>
    intro ls _ hlen
    have h5 : ls.attempts ≥ 5 := by
      simpa using hlen
    simp [fetchRun, h5]
  | cons r rest ih =>
    intro ls h429 hlen
    by_cases h5 : ls.attempts ≥ 5
    · simp [fetchRun, h5]
    · cases r with
      | transportErr =>
        have hrec := ih ⟨ls.attempts + 1, ls.backoff * 2⟩
          (fun x hx o => h429 x (List.mem_cons_of_mem _ hx) o)
          (by
            show 5 ≤ ls.attempts + 1 + rest.length
            simp only [List.length_cons] at hlen
            omega)
        simpa [fetchRun, h5] using hrec
      | noContent => simp [fetchRun, h5]
      | tooMany o => exact absurd rfl (h429 _ (List.mem_cons_self _ _) o)
      | serverErr => simp [fetchRun, h5]
      | okDecision o s a => simp [fetchRun, h5]
      | decodeErr => simp [fetchRun, h5]

/-- Claim C7: on a 204 (order not registered) the claim requires the
pipeline to finish with the order marked INVALID.  The code does not:
FetchAccrual returns the terminal "order not registered" error after
exactly one request (no retry, no backoff slot consumed, balance
untouched) and the worker merely logs it and removes the number from the
in-flight set — the store is returned completely unchanged, with the
order still PROCESSING, never INVALID. -/
theorem C7_not_registered_leaves_order_pending :
    workerProcess stA ["79927398713"] "79927398713" [Resp.noContent] =
      some (FetchResult.notRegistered, stA, []) ∧
    (stA.orders "79927398713").map OrderRow.status = some OrderProcessing ∧
    (fetchRun stA initLoop [Resp.noContent]).2 = [Ev.request] := by
  exact ⟨rfl, rfl, rfl⟩

/-- Claim C8 counterexample: the claim predicts that a 429 response
without a Retry-After header incurs the standard exponential backoff
(sleep the current backoff, double it, count one attempt, so that six
such responses would exhaust some budget and sleep five times).  The
code instead retries immediately: after six header-less 429 responses
the loop has made six requests with zero sleep events, still counts zero
attempts, and is still running. -/
theorem C8_429_without_header_no_backoff :
    (fetchRun stA initLoop (List.replicate 6 (Resp.tooMany none))).1 = none ∧
    (fetchRun stA initLoop (List.replicate 6 (Resp.tooMany none))).2 =
      List.replicate 6 Ev.request := by
  exact ⟨rfl, rfl⟩

/-- Claim C8 as amended: on a rate-limited response whose Retry-After
header is present and parseable, the client resets backoff to its
initial one-second value, sleeps exactly the indicated duration, and
retries without incrementing the failed-attempt counter; when the header
is absent the client retries immediately — no sleep, no backoff change,
no attempt counted. -/
theorem C8_rate_limit_handling (st : St) (ls : LoopState) (rest : List Resp)
    (r : Int) (h : ls.attempts < 5) :
    fetchRun st ls (Resp.tooMany (some r) :: rest) =
      ((fetchRun st ⟨ls.attempts, 1⟩ rest).1,
        Ev.request :: Ev.sleep r :: (fetchRun st ⟨ls.attempts, 1⟩ rest).2) ∧
    fetchRun st ls (Resp.tooMany none :: rest) =
      ((fetchRun st ls rest).1, Ev.request :: (fetchRun st ls rest).2) := by
  have h5 : ¬ ls.attempts ≥ 5 := by omega
  exact ⟨by simp [fetchRun, h5], fetchRun_tooManyNone st ls rest h⟩

/-- Witness for the amended C8, reproducing the spec scenario: 429 with
Retry-After 2 followed by a 200 decision gives one request, a 2-second
sleep, then the second request, with the backoff counter reset. -/
theorem C8_rate_limit_handling_witness :
    fetchRun stA initLoop
        [Resp.tooMany (some 2), Resp.okDecision "79927398713" OrderProcessed 100] =
      ((fetchRun stA ⟨initLoop.attempts, 1⟩
          [Resp.okDecision "79927398713" OrderProcessed 100]).1,
        Ev.request :: Ev.sleep 2 ::
          (fetchRun stA ⟨initLoop.attempts, 1⟩
            [Resp.okDecision "79927398713" OrderProcessed 100]).2) ∧
    fetchRun stA initLoop
        [Resp.tooMany none, Resp.okDecision "79927398713" OrderProcessed 100] =
      ((fetchRun stA initLoop
          [Resp.okDecision "79927398713" OrderProcessed 100]).1,
        Ev.request ::
          (fetchRun stA initLoop
            [Resp.okDecision "79927398713" OrderProcessed 100]).2) :=
  C8_rate_limit_handling stA initLoop
    [Resp.okDecision "79927398713" OrderProcessed 100] 2 (by decide)

/-- Claim C9 counterexample: the claim says no response sequence keeps
the retry loop running forever, but rate-limited responses never consume
an attempt: against the sequence that answers 429 without Retry-After
forever, no finite number of loop iterations ever produces a terminal
result — the loop runs unboundedly. -/
theorem C9_all_429_never_terminates :
    ¬ ∃ n : Nat,
      ((fetchRun stA initLoop
        (List.replicate n (Resp.tooMany none))).1).isSome = true := by
  have key : ∀ n : Nat,
      (fetchRun stA initLoop (List.replicate n (Resp.tooMany none))).1 = none := by
    intro n
    induction n with
    | zero => rfl
    | succ k ih =>
      rw [List.replicate_succ,
        fetchRun_tooManyNone stA initLoop _ (by decide)]
      exact ih
  rintro ⟨n, hn⟩
  rw [key n] at hn
  simp at hn

/-- Claim C9 as amended: transport failures each consume one backoff
attempt and the loop terminates on every response sequence containing no
429 response once the attempt budget of 5 is covered (any other response
returns immediately, and after 5 transport failures the next check
returns the terminal max-retries error); five straight transport
failures sleep the doubling backoff 1, 2, 4, 8, 16 and end in
maxRetries.  Rate-limited responses consume no attempt, so termination
does not extend to sequences that are eventually all 429. -/
theorem C9_terminates_without_429 (st : St) (ls : LoopState)
    (resps : List Resp) (h429 : ∀ r ∈ resps, ∀ o, r ≠ Resp.tooMany o)
    (hlen : 5 ≤ ls.attempts + resps.length) :
    ((fetchRun st ls resps).1).isSome = true ∧
    fetchRun st initLoop (List.replicate 5 Resp.transportErr) =
      (some (FetchResult.maxRetries, st),
        [Ev.request, Ev.sleep 1, Ev.request, Ev.sleep 2, Ev.request, Ev.sleep 4,
          Ev.request, Ev.sleep 8, Ev.request, Ev.sleep 16]) := by
  exact ⟨fetchRun_terminates_no429 st resps ls h429 hlen, rfl⟩

/-- Witness for the amended C9: five transport failures exhaust the
attempt budget and yield the terminal max-retries error. -/
theorem C9_terminates_without_429_witness :
    ((fetchRun stA initLoop (List.replicate 5 Resp.transportErr)).1).isSome = true ∧
    fetchRun stA initLoop (List.replicate 5 Resp.transportErr) =
      (some (FetchResult.maxRetries, stA),
        [Ev.request, Ev.sleep 1, Ev.request, Ev.sleep 2, Ev.request, Ev.sleep 4,
          Ev.request, Ev.sleep 8, Ev.request, Ev.sleep 16]) :=
  C9_terminates_without_429 stA initLoop (List.replicate 5 Resp.transportErr)
    (by
      intro r hr o
      rw [List.eq_of_mem_replicate hr]
      intro h
      cases h)
    (by decide)

end Scoring
